import Mathlib

/-!
Verification of the RMK internship commute-analysis program.

Shallow embedding of the Python sources:
  src/main.py                  (Snapshot Aggregator, Lateness Estimator)
  src/data_extraction.py       (Schedule Loader, Trip Matcher, Time Codec)
  src/scripts/time_calculations.py  (seconds-based time codec used by main.py)

Modelling conventions:
  - A GTFS clock string "HH:MM:SS" that parses is represented by its three
    integer components (structure GtfsTime); the Python conversions
    change_gtfs_time / change_gtfs_time_to_seconds are embedded as functions
    on that structure, with Python integer floor division // embedded as
    Int.fdiv and Python % as Int.emod (both agree with Python on the
    positive divisors the source uses).
  - A CSV row is a record of Option fields: a missing column is None, and
    accessing it raises KeyError, as row["name"] does on a Python dict.
  - int(text) is embedded as a decimal parser over the characters of the
    string, with failure raising ValueError.
  - Python exceptions are modelled with Except PyErr; opening an absent
    file raises fileNotFound.
  - Python floats produced by late_count / len(available_trips) are
    embedded as exact rationals.
-/

/-- One parsed GTFS clock value: the three colon-separated integer fields of
an "HH:MM:SS" string (hours may exceed 23 in transit feeds). -/
structure GtfsTime where
  hh : Int
  mm : Int
  ss : Int
deriving DecidableEq, Repr

/-- Python exceptions relevant to the pipeline. -/
inductive PyErr where
  | fileNotFound
  | keyError
  | valueError
deriving DecidableEq, Repr

instance {ε α : Type} [DecidableEq ε] [DecidableEq α] : DecidableEq (Except ε α) := fun x y =>
  match x, y with
  | Except.ok a, Except.ok b =>
      if h : a = b then isTrue (by rw [h])
      else isFalse (by intro hc; apply h; injection hc)
  | Except.error a, Except.error b =>
      if h : a = b then isTrue (by rw [h])
      else isFalse (by intro hc; apply h; injection hc)
  | Except.ok _, Except.error _ => isFalse (fun hc => Except.noConfusion hc)
  | Except.error _, Except.ok _ => isFalse (fun hc => Except.noConfusion hc)

/-- Accessing a field of a CSV row dict: row["name"], raising KeyError when
the column is absent. -/
def dictGet {α : Type} : Option α → Except PyErr α
  | some a => Except.ok a
  | none => Except.error PyErr.keyError

/-- Decimal digit accumulator over the characters of a numeral. -/
def parseDigitsAux : List Char → Nat → Option Nat
  | [], acc => some acc
  | c :: cs, acc =>
      if c.isDigit then parseDigitsAux cs (acc * 10 + (c.toNat - 48)) else none

/-- Python int(text): parse a decimal integer literal, with an optional
leading minus sign, raising ValueError otherwise. -/
def py_int (s : String) : Except PyErr Int :=
  match s.data with
  | [] => Except.error PyErr.valueError
  | c :: cs =>
      if c = Char.ofNat 45 then
        match cs, parseDigitsAux cs 0 with
        | _ :: _, some n => Except.ok (-(n : Int))
        | _, _ => Except.error PyErr.valueError
      else
        match parseDigitsAux (c :: cs) 0 with
        | some n => Except.ok ((n : Int))
        | none => Except.error PyErr.valueError

/-- src/data_extraction.py change_gtfs_time: GTFS time to whole minutes since
midnight, hours*60 + minutes + seconds//60. -/
def change_gtfs_time (t : GtfsTime) : Int :=
  t.hh * 60 + t.mm + t.ss.fdiv 60

/-- src/scripts/time_calculations.py change_gtfs_time_to_seconds (imported by
src/main.py): GTFS time to seconds since midnight. -/
def change_gtfs_time_to_seconds (t : GtfsTime) : Int :=
  t.hh * 3600 + t.mm * 60 + t.ss

/-- Python f-string formatting with the 02 spec: pad the decimal rendering on
the left with a zero up to width two (the sign counts toward the width). -/
def pyFormat02 (n : Int) : String :=
  if 0 ≤ n ∧ n < 10 then "0" ++ toString n else toString n

/-- src/data_extraction.py sec_to_hhmm: seconds since midnight to an "HH:MM"
display string, hours = seconds//3600, minutes = (seconds%3600)//60. -/
def sec_to_hhmm (seconds : Int) : String :=
  pyFormat02 (seconds.fdiv 3600) ++ ":" ++ pyFormat02 ((seconds % 3600).fdiv 60)

/-- The zero-padded two-digit decimal numeral of n, written directly as its
two ASCII digit characters; the "HH" and "MM" of the spec's clock format. -/
def twoDigitString (n : Int) : String :=
  String.mk [Char.ofNat (48 + (n.fdiv 10).toNat), Char.ofNat (48 + (n.emod 10).toNat)]

/-- src/data_extraction.py is_in_time_window: the departure's whole-minute
value lies in the inclusive window [start_min, end_min] (defaults 480 and 545
at every call site). -/
def is_in_time_window (departure_time : GtfsTime) (start_min end_min : Int) : Bool :=
  decide (start_min ≤ change_gtfs_time departure_time ∧
          change_gtfs_time departure_time ≤ end_min)

/-- One row of trips.txt as read by csv.DictReader (fields possibly absent). -/
structure TripRow where
  trip_id : Option String
  trip_long_name : Option String
deriving DecidableEq, Repr

/-- One row of stops.txt as read by csv.DictReader. -/
structure StopRow where
  stop_id : Option String
  stop_name : Option String
deriving DecidableEq, Repr

/-- One row of stop_times.txt as read by csv.DictReader; stop_sequence is the
raw text still to be parsed by int(). -/
structure StopTimeRow where
  trip_id : Option String
  stop_id : Option String
  arrival_time : Option GtfsTime
  departure_time : Option GtfsTime
  stop_sequence : Option String
deriving DecidableEq, Repr

/-- The per-stop dict appended to trips[trip_id] by find_zoo_toompark_trips. -/
structure Visit where
  stop_id : String
  arrival_time : GtfsTime
  departure_time : GtfsTime
  stop_sequence : Int
deriving DecidableEq, Repr

/-- The result dict appended by find_zoo_toompark_trips for a matched trip. -/
structure MatchedTrip where
  trip_id : String
  zoo_stop_id : String
  zoo_departure : GtfsTime
  toompark_stop_id : String
  toompark_arrival : GtfsTime
  time_diff_minutes : Int
  intermediate_stops : Int
deriving DecidableEq, Repr

/-- One dated snapshot directory: its three table files, None when absent. -/
structure Snapshot where
  trips_file : Option (List TripRow)
  stops_file : Option (List StopRow)
  stop_times_file : Option (List StopTimeRow)
deriving DecidableEq, Repr

/-- src/data_extraction.py filter_trip_ids: trip ids whose trip_long_name is
exactly the target line name; opening an absent file raises. -/
def filter_trip_ids : Option (List TripRow) → Except PyErr (List String)
  | none => Except.error PyErr.fileNotFound
  | some rows =>
      rows.foldlM (fun acc row => do
        let lname ← dictGet row.trip_long_name
        if lname = "Väike-Õismäe - Äigrumäe" then do
          let tid ← dictGet row.trip_id
          Except.ok (acc ++ [tid])
        else
          Except.ok acc) []

/-- src/data_extraction.py extract_stop_ids: stop ids named Zoo and Toompark;
FileNotFoundError is caught inside and yields the empty pair. -/
def extract_stop_ids : Option (List StopRow) → Except PyErr (List String × List String)
  | none => Except.ok ([], [])
  | some rows =>
      rows.foldlM (fun acc row => do
        let sname ← dictGet row.stop_name
        if sname = "Zoo" then do
          let sid ← dictGet row.stop_id
          Except.ok (acc.1 ++ [sid], acc.2)
        else if sname = "Toompark" then do
          let sid ← dictGet row.stop_id
          Except.ok (acc.1, acc.2 ++ [sid])
        else
          Except.ok acc) ([], [])

/-- Insertion into the trips dict of find_zoo_toompark_trips: Python dicts
keep first-insertion key order, and each trip's visit list keeps row order. -/
def upsert (gs : List (String × List Visit)) (tid : String) (v : Visit) :
    List (String × List Visit) :=
  match gs with
  | [] => [(tid, [v])]
  | (k, vs) :: rest =>
      if k = tid then (k, vs ++ [v]) :: rest else (k, vs) :: upsert rest tid v

/-- One row of the stop_times reading loop: field accesses in source order,
then int() on stop_sequence. -/
def parse_row (row : StopTimeRow) : Except PyErr (String × Visit) := do
  let tid ← dictGet row.trip_id
  let sid ← dictGet row.stop_id
  let arr ← dictGet row.arrival_time
  let dep ← dictGet row.departure_time
  let seqStr ← dictGet row.stop_sequence
  let seq ← py_int seqStr
  Except.ok (tid, { stop_id := sid, arrival_time := arr, departure_time := dep,
                    stop_sequence := seq })

/-- The grouping phase of find_zoo_toompark_trips: stop_times rows grouped by
trip_id in insertion order. -/
def parse_stop_rows (rows : List StopTimeRow) : Except PyErr (List (String × List Visit)) :=
  rows.foldlM (fun gs row => do
    let tv ← parse_row row
    Except.ok (upsert gs tv.1 tv.2)) []

/-- The per-trip body of the analysis loop of find_zoo_toompark_trips: first
Zoo visit in stored order, first strictly later-in-sequence Toompark visit,
window check on the Zoo departure, and the emitted result dict. -/
def match_one (tid : String) (stops : List Visit) (zoo_stop_ids toompark_stop_ids : List String) :
    Option MatchedTrip :=
  match stops.filter (fun s => zoo_stop_ids.contains s.stop_id),
        stops.filter (fun s => toompark_stop_ids.contains s.stop_id) with
  | first_zoo :: _, t0 :: ts =>
      match (t0 :: ts).filter (fun s => first_zoo.stop_sequence < s.stop_sequence) with
      | first_toompark :: _ =>
          if is_in_time_window first_zoo.departure_time 480 545 then
            some { trip_id := tid
                 , zoo_stop_id := first_zoo.stop_id
                 , zoo_departure := first_zoo.departure_time
                 , toompark_stop_id := first_toompark.stop_id
                 , toompark_arrival := first_toompark.arrival_time
                 , time_diff_minutes :=
                     change_gtfs_time first_toompark.arrival_time -
                       change_gtfs_time first_zoo.departure_time
                 , intermediate_stops :=
                     first_toompark.stop_sequence - first_zoo.stop_sequence - 1 }
          else none
      | [] => none
  | _, _ => none

/-- The analysis loop of find_zoo_toompark_trips over the grouped trips dict. -/
def match_trips (gs : List (String × List Visit)) (zoo_stop_ids toompark_stop_ids : List String) :
    List MatchedTrip :=
  gs.filterMap (fun g => match_one g.1 g.2 zoo_stop_ids toompark_stop_ids)

/-- src/data_extraction.py find_zoo_toompark_trips: read and group the
stop_times rows, then run the per-trip matching loop. -/
def find_zoo_toompark_trips :
    Option (List StopTimeRow) → List String → List String → Except PyErr (List MatchedTrip)
  | none, _, _ => Except.error PyErr.fileNotFound
  | some rows, zoo_stop_ids, toompark_stop_ids => do
      let gs ← parse_stop_rows rows
      Except.ok (match_trips gs zoo_stop_ids toompark_stop_ids)

/-- Each trip group re-sorted by stop_sequence ascending. -/
def sortGroups (gs : List (String × List Visit)) : List (String × List Visit) :=
  gs.map (fun g =>
    (g.1, List.insertionSort (fun a b : Visit => a.stop_sequence ≤ b.stop_sequence) g.2))

/-- Modelled from the spec: the Schedule Loader and Trip Matcher the spec
describes, in which every trip's stop-visit sequence is built by grouping
stop-visit rows by trip identifier and sorting each group by sequence_number
ascending; identical to find_zoo_toompark_trips except for that sort. No code
in the repository sorts, so this definition follows the spec's words for
comparison with the implementation. -/
def find_zoo_toompark_trips_sorted :
    Option (List StopTimeRow) → List String → List String → Except PyErr (List MatchedTrip)
  | none, _, _ => Except.error PyErr.fileNotFound
  | some rows, zoo_stop_ids, toompark_stop_ids => do
      let gs ← parse_stop_rows rows
      Except.ok (match_trips (sortGroups gs) zoo_stop_ids toompark_stop_ids)

/-- The body of the try block of collect_all_travel_times for one snapshot:
load trip ids, load stop ids, match trips, keep the target line's trips. -/
def process_snapshot (s : Snapshot) : Except PyErr (List MatchedTrip) := do
  let trips_ids ← filter_trip_ids s.trips_file
  let ids ← extract_stop_ids s.stops_file
  let trips ← find_zoo_toompark_trips s.stop_times_file ids.1 ids.2
  Except.ok (trips.filter (fun t => trips_ids.contains t.trip_id))

/-- The day loop of collect_all_travel_times: per-day results are appended to
the flat list and the by-day list; except FileNotFoundError skips the day and
reports its folder name; any other exception propagates. -/
def collect_aux :
    List (String × Snapshot) →
    List MatchedTrip × List (String × List MatchedTrip) × List String →
    Except PyErr (List MatchedTrip × List (String × List MatchedTrip) × List String)
  | [], acc => Except.ok acc
  | (name, s) :: rest, (all, byDay, reported) =>
      match process_snapshot s with
      | Except.ok filtered =>
          collect_aux rest (all ++ filtered, byDay ++ [(name, filtered)], reported)
      | Except.error PyErr.fileNotFound =>
          collect_aux rest (all, byDay, reported ++ [name])
      | Except.error e => Except.error e

/-- src/main.py collect_all_travel_times over a list of (folder, snapshot)
pairs in directory-listing order; the third component records the folders
whose failure was caught and printed. -/
def collect_all_travel_times (days : List (String × Snapshot)) :
    Except PyErr (List MatchedTrip × List (String × List MatchedTrip) × List String) :=
  collect_aux days ([], [], [])

/-- The flat sample list collect_all_travel_times accumulates: the matched
trips of every snapshot whose processing succeeds, in order. -/
def aggregatorSamples (days : List (String × Snapshot)) : List MatchedTrip :=
  (days.filterMap (fun p => (process_snapshot p.2).toOption)).flatten

/-- The by-day breakdown collect_all_travel_times accumulates. -/
def aggregatorByDay (days : List (String × Snapshot)) : List (String × List MatchedTrip) :=
  days.filterMap (fun p => (process_snapshot p.2).toOption.map (fun f => (p.1, f)))

/-- The folder names collect_all_travel_times reports as failed: exactly the
snapshots whose processing raised FileNotFoundError. -/
def aggregatorSkipped (days : List (String × Snapshot)) : List String :=
  days.filterMap (fun p =>
    match process_snapshot p.2 with
    | Except.error PyErr.fileNotFound => some p.1
    | _ => none)

/-- The list comprehension of compute_lateness_probability: trips whose
origin departure (in seconds) is at or after arrival at the stop, converted
to (departure seconds, arrival seconds) pairs. -/
def available_trips (trips : List MatchedTrip) (arrive_at_stop : Int) : List (Int × Int) :=
  (trips.filter (fun t =>
      decide (arrive_at_stop ≤ change_gtfs_time_to_seconds t.zoo_departure))).map
    (fun t => (change_gtfs_time_to_seconds t.zoo_departure,
               change_gtfs_time_to_seconds t.toompark_arrival))

/-- One iteration of the leave-time loop of compute_lateness_probability:
probability 1.0 when no trip is reachable, otherwise the fraction of
reachable trips whose office arrival is past the meeting time. -/
def lateness_prob_at (trips : List MatchedTrip)
    (leave_home_at meeting_time_sec walk_to_bus walk_from_bus : Int) : ℚ :=
  let avail := available_trips trips (leave_home_at + walk_to_bus)
  if avail.isEmpty then 1
  else
    ((avail.countP (fun p => decide (meeting_time_sec < p.2 + walk_from_bus)) : ℚ)) /
      ((avail.length : ℚ))

/-- src/main.py compute_lateness_probability: the probability-of-lateness
curve over the candidate leave times. -/
def compute_lateness_probability (trips : List MatchedTrip) (leave_times : List Int)
    (meeting_time_sec walk_to_bus walk_from_bus : Int) : List ℚ :=
  leave_times.map (fun l =>
    lateness_prob_at trips l meeting_time_sec walk_to_bus walk_from_bus)

/-! Concrete inputs used by counterexamples and witnesses. -/

/-- The single matched trip of the spec's Scenario A and B: departs the
origin at 08:10:00, arrives at the destination at 08:23:00. -/
def scenarioTrip : MatchedTrip :=
  { trip_id := "t1", zoo_stop_id := "z1", zoo_departure := ⟨8, 10, 0⟩
  , toompark_stop_id := "p1", toompark_arrival := ⟨8, 23, 0⟩
  , time_diff_minutes := 13, intermediate_stops := 1 }

/-- Two-trip corpus: an early trip that arrives well before the meeting and a
late trip that departs later but arrives after the meeting. -/
def twoTripCorpus : List MatchedTrip :=
  [ { trip_id := "a", zoo_stop_id := "z1", zoo_departure := ⟨8, 0, 0⟩
    , toompark_stop_id := "p1", toompark_arrival := ⟨8, 5, 0⟩
    , time_diff_minutes := 5, intermediate_stops := 1 }
  , { trip_id := "b", zoo_stop_id := "z1", zoo_departure := ⟨8, 30, 0⟩
    , toompark_stop_id := "p1", toompark_arrival := ⟨9, 30, 0⟩
    , time_diff_minutes := 60, intermediate_stops := 1 } ]

/-- Stop-time rows of one trip whose rows are not in sequence order: the Zoo
visit with sequence 5 precedes the Zoo visit with sequence 2 in the file. -/
def unorderedRows : List StopTimeRow :=
  [ ⟨some "t1", some "Z", some ⟨8, 4, 30⟩, some ⟨8, 5, 0⟩, some "5"⟩
  , ⟨some "t1", some "Z", some ⟨8, 0, 30⟩, some ⟨8, 1, 0⟩, some "2"⟩
  , ⟨some "t1", some "T", some ⟨8, 20, 0⟩, some ⟨8, 20, 30⟩, some "7"⟩ ]

/-- Stop-time rows of one trip whose Zoo departure 09:05:30 lies strictly
after the window end 09:05:00 but floors to minute 545. -/
def pastWindowRows : List StopTimeRow :=
  [ ⟨some "t1", some "Z", some ⟨9, 5, 0⟩, some ⟨9, 5, 30⟩, some "3"⟩
  , ⟨some "t1", some "T", some ⟨9, 15, 0⟩, some ⟨9, 15, 30⟩, some "5"⟩ ]

/-- Stop-time rows of one trip whose Zoo departure 08:10:30 and Toompark
arrival 08:12:00 are 90 seconds apart. -/
def oddSecondsRows : List StopTimeRow :=
  [ ⟨some "t1", some "Z", some ⟨8, 10, 0⟩, some ⟨8, 10, 30⟩, some "3"⟩
  , ⟨some "t1", some "T", some ⟨8, 12, 0⟩, some ⟨8, 12, 30⟩, some "5"⟩ ]

/-- A trips.txt with one row of the target line. -/
def goodTripsRows : List TripRow := [⟨some "t1", some "Väike-Õismäe - Äigrumäe"⟩]

/-- A stops.txt naming one Zoo stop and one Toompark stop. -/
def goodStopsRows : List StopRow := [⟨some "Z", some "Zoo"⟩, ⟨some "T", some "Toompark"⟩]

/-- A stop_times.txt with one well-formed Zoo-then-Toompark trip. -/
def goodStopTimesRows : List StopTimeRow :=
  [ ⟨some "t1", some "Z", some ⟨8, 9, 0⟩, some ⟨8, 10, 0⟩, some "3"⟩
  , ⟨some "t1", some "T", some ⟨8, 23, 0⟩, some ⟨8, 23, 30⟩, some "5"⟩ ]

/-- A fully well-formed snapshot yielding exactly one matched trip. -/
def goodSnap : Snapshot := ⟨some goodTripsRows, some goodStopsRows, some goodStopTimesRows⟩

/-- The matched trip goodSnap yields. -/
def goodTrip : MatchedTrip :=
  { trip_id := "t1", zoo_stop_id := "Z", zoo_departure := ⟨8, 10, 0⟩
  , toompark_stop_id := "T", toompark_arrival := ⟨8, 23, 0⟩
  , time_diff_minutes := 13, intermediate_stops := 1 }

/-- A snapshot whose stop_times table has a malformed row: stop_sequence "x"
is not an integer. -/
def badSeqSnap : Snapshot :=
  ⟨some goodTripsRows, some goodStopsRows,
   some [⟨some "t1", some "Z", some ⟨8, 9, 0⟩, some ⟨8, 10, 0⟩, some "x"⟩]⟩

/-- A snapshot whose stop_times table file is absent. -/
def missingStopTimesSnap : Snapshot := ⟨some goodTripsRows, some goodStopsRows, none⟩

/-- A snapshot missing only its stops table file. -/
def missingStopsSnap : Snapshot := ⟨some goodTripsRows, none, some goodStopTimesRows⟩

/-- The grouped form of goodStopTimesRows. -/
def goodGroups : List (String × List Visit) :=
  [("t1", [ { stop_id := "Z", arrival_time := ⟨8, 9, 0⟩, departure_time := ⟨8, 10, 0⟩
            , stop_sequence := 3 }
          , { stop_id := "T", arrival_time := ⟨8, 23, 0⟩, departure_time := ⟨8, 23, 30⟩
            , stop_sequence := 5 } ])]

/-- Anatomy of an emitted MatchedTrip: every record the per-trip analysis
loop emits comes from a first-in-stored-order origin visit z and a
subsequent destination visit d of the trip, with the window check passed on
z and every output field computed from z and d as in the source. -/
theorem match_one_spec {tid : String} {stops : List Visit}
    {zoo_stop_ids toompark_stop_ids : List String} {r : MatchedTrip}
    (h : match_one tid stops zoo_stop_ids toompark_stop_ids = some r) :
    ∃ z ∈ stops, ∃ d ∈ stops,
      zoo_stop_ids.contains z.stop_id = true ∧
      toompark_stop_ids.contains d.stop_id = true ∧
      z.stop_sequence < d.stop_sequence ∧
      is_in_time_window z.departure_time 480 545 = true ∧
      r.trip_id = tid ∧
      r.zoo_stop_id = z.stop_id ∧
      r.zoo_departure = z.departure_time ∧
      r.toompark_stop_id = d.stop_id ∧
      r.toompark_arrival = d.arrival_time ∧
      r.time_diff_minutes =
        change_gtfs_time d.arrival_time - change_gtfs_time z.departure_time ∧
      r.intermediate_stops = d.stop_sequence - z.stop_sequence - 1 := by
  unfold match_one at h
  split at h
  · rename_i first_zoo tail t0 ts hz ht
    split at h
    · rename_i first_toompark subtail hsub
      split at h
      · rename_i hwin
        injection h with hrec
        subst hrec
        have hzmem : first_zoo ∈ first_zoo :: tail := List.mem_cons_self _ _
        rw [← hz] at hzmem
        obtain ⟨hzs, hzc⟩ := List.mem_filter.mp hzmem
        have hdmem : first_toompark ∈ first_toompark :: subtail := List.mem_cons_self _ _
        rw [← hsub] at hdmem
        obtain ⟨hdm1, hdlt⟩ := List.mem_filter.mp hdmem
        rw [← ht] at hdm1
        obtain ⟨hds, hdc⟩ := List.mem_filter.mp hdm1
        exact ⟨first_zoo, hzs, first_toompark, hds, hzc, hdc, of_decide_eq_true hdlt, hwin,
          rfl, rfl, rfl, rfl, rfl, rfl, rfl⟩
      · simp at h
    · simp at h
  · simp at h

/-- C4 amended: the minute-granularity window guarantee. Every MatchedTrip
the per-trip analysis loop emits has an origin departure whose whole-minute
value lies in the inclusive window of 480 to 545 minutes; equivalently, no
MatchedTrip is emitted whose origin departure's minute value is strictly
outside that window. (At second precision the guarantee fails; see the
counterexample.) -/
theorem matcher_window_minute_granularity
    (gs : List (String × List Visit)) (zoo_stop_ids toompark_stop_ids : List String)
    (r : MatchedTrip) (hr : r ∈ match_trips gs zoo_stop_ids toompark_stop_ids) :
    480 ≤ change_gtfs_time r.zoo_departure ∧ change_gtfs_time r.zoo_departure ≤ 545 := by
  obtain ⟨g, _, hm⟩ := List.mem_filterMap.mp hr
  obtain ⟨z, _, d, _, _, _, _, hwin, _, _, hdep, _⟩ := match_one_spec hm
  rw [hdep]
  exact of_decide_eq_true hwin

/-- C4 witness: the guarantee instantiated on the well-formed one-trip
snapshot data. -/
theorem matcher_window_minute_granularity_witness :
    480 ≤ change_gtfs_time goodTrip.zoo_departure ∧
      change_gtfs_time goodTrip.zoo_departure ≤ 545 :=
  matcher_window_minute_granularity goodGroups ["Z"] ["T"] goodTrip (by decide)

/-- C4 counterexample: a trip departing the origin at 09:05:30, strictly
after the window end 09:05:00 in seconds since midnight, is nevertheless
emitted by find_zoo_toompark_trips, because the source compares the
departure floored to whole minutes. -/
theorem matcher_window_seconds_cex :
    find_zoo_toompark_trips (some pastWindowRows) ["Z"] ["T"] =
      Except.ok [{ trip_id := "t1", zoo_stop_id := "Z", zoo_departure := ⟨9, 5, 30⟩
                 , toompark_stop_id := "T", toompark_arrival := ⟨9, 15, 0⟩
                 , time_diff_minutes := 10, intermediate_stops := 1 }] ∧
    545 * 60 < change_gtfs_time_to_seconds ⟨9, 5, 30⟩ := by
  constructor
  · decide
  · decide

/-- C5 amended: every emitted MatchedTrip records its travel time in whole
minutes as the destination arrival floored to minutes minus the origin
departure floored to minutes, and its intermediate stop count as the
destination sequence number minus the origin sequence number minus one. -/
theorem matcher_travel_time_minutes
    (gs : List (String × List Visit)) (zoo_stop_ids toompark_stop_ids : List String)
    (r : MatchedTrip) (hr : r ∈ match_trips gs zoo_stop_ids toompark_stop_ids) :
    ∃ g ∈ gs, g.1 = r.trip_id ∧ ∃ z ∈ g.2, ∃ d ∈ g.2,
      r.zoo_departure = z.departure_time ∧
      r.toompark_arrival = d.arrival_time ∧
      r.time_diff_minutes =
        change_gtfs_time d.arrival_time - change_gtfs_time z.departure_time ∧
      r.intermediate_stops = d.stop_sequence - z.stop_sequence - 1 := by
  obtain ⟨g, hg, hm⟩ := List.mem_filterMap.mp hr
  obtain ⟨z, hz, d, hd, _, _, _, _, htid, _, hdep, _, harr, hdiff, hint⟩ := match_one_spec hm
  exact ⟨g, hg, htid.symm, z, hz, d, hd, hdep, harr, hdiff, hint⟩

/-- C5 witness: the travel-time anatomy instantiated on the well-formed
one-trip snapshot data. -/
theorem matcher_travel_time_minutes_witness :
    ∃ g ∈ goodGroups, g.1 = goodTrip.trip_id ∧ ∃ z ∈ g.2, ∃ d ∈ g.2,
      goodTrip.zoo_departure = z.departure_time ∧
      goodTrip.toompark_arrival = d.arrival_time ∧
      goodTrip.time_diff_minutes =
        change_gtfs_time d.arrival_time - change_gtfs_time z.departure_time ∧
      goodTrip.intermediate_stops = d.stop_sequence - z.stop_sequence - 1 :=
  matcher_travel_time_minutes goodGroups ["Z"] ["T"] goodTrip (by decide)

/-- The matched trip emitted for the 90-second trip of oddSecondsRows. -/
def oddSecondsTrip : MatchedTrip :=
  { trip_id := "t1", zoo_stop_id := "Z", zoo_departure := ⟨8, 10, 30⟩
  , toompark_stop_id := "T", toompark_arrival := ⟨8, 12, 0⟩
  , time_diff_minutes := 2, intermediate_stops := 1 }

/-- C5 counterexample: a trip departing 08:10:30 and arriving 08:12:00 is 90
seconds long, but the emitted record stores time_diff_minutes = 2, which is
neither 90 (the difference in seconds) nor 90 seconds expressed in minutes
(2 minutes is 120 seconds): the recorded travel time is not the
arrival-minus-departure difference in seconds. -/
theorem matcher_travel_time_not_seconds_cex :
    find_zoo_toompark_trips (some oddSecondsRows) ["Z"] ["T"] = Except.ok [oddSecondsTrip] ∧
    change_gtfs_time_to_seconds ⟨8, 12, 0⟩ - change_gtfs_time_to_seconds ⟨8, 10, 30⟩ = 90 ∧
    oddSecondsTrip.time_diff_minutes ≠ 90 ∧
    oddSecondsTrip.time_diff_minutes * 60 ≠ 90 := by
  refine ⟨by decide, by decide, by decide, by decide⟩

/-- C8: every emitted MatchedTrip comes from an origin visit z and a
destination visit d of the same trip with the destination's sequence number
strictly greater than the origin's. -/
theorem matcher_direction_invariant
    (gs : List (String × List Visit)) (zoo_stop_ids toompark_stop_ids : List String)
    (r : MatchedTrip) (hr : r ∈ match_trips gs zoo_stop_ids toompark_stop_ids) :
    ∃ g ∈ gs, g.1 = r.trip_id ∧ ∃ z ∈ g.2, ∃ d ∈ g.2,
      zoo_stop_ids.contains z.stop_id = true ∧
      toompark_stop_ids.contains d.stop_id = true ∧
      r.zoo_departure = z.departure_time ∧
      r.toompark_arrival = d.arrival_time ∧
      r.intermediate_stops = d.stop_sequence - z.stop_sequence - 1 ∧
      z.stop_sequence < d.stop_sequence := by
  obtain ⟨g, hg, hm⟩ := List.mem_filterMap.mp hr
  obtain ⟨z, hz, d, hd, hzc, hdc, hlt, _, htid, _, hdep, _, harr, _, hint⟩ := match_one_spec hm
  exact ⟨g, hg, htid.symm, z, hz, d, hd, hzc, hdc, hdep, harr, hint, hlt⟩

/-- The day loop with an arbitrary accumulator: when no snapshot raises a
malformed-row error, it succeeds and appends the samples, the by-day
breakdown and the skipped folder names. -/
theorem collect_aux_ok (days : List (String × Snapshot)) :
    ∀ (a : List MatchedTrip) (b : List (String × List MatchedTrip)) (c : List String),
    (∀ p ∈ days, process_snapshot p.2 ≠ Except.error PyErr.keyError ∧
                 process_snapshot p.2 ≠ Except.error PyErr.valueError) →
    collect_aux days (a, b, c) =
      Except.ok (a ++ aggregatorSamples days, b ++ aggregatorByDay days,
                 c ++ aggregatorSkipped days) := by
  induction days with
  | nil =>
      intro a b c _
      simp [collect_aux, aggregatorSamples, aggregatorByDay, aggregatorSkipped]
  | cons p rest ih =>
      intro a b c H
      obtain ⟨name, s⟩ := p
      have hp := H (name, s) (List.mem_cons_self _ _)
      have Hrest : ∀ q ∈ rest, process_snapshot q.2 ≠ Except.error PyErr.keyError ∧
          process_snapshot q.2 ≠ Except.error PyErr.valueError :=
        fun q hq => H q (List.mem_cons_of_mem _ hq)
      cases hps : process_snapshot s with
      | ok f =>
          simp only [collect_aux, hps]
          rw [ih (a ++ f) (b ++ [(name, f)]) c Hrest]
          simp [aggregatorSamples, aggregatorByDay, aggregatorSkipped, hps,
            List.filterMap_cons, Except.toOption]
      | error e =>
          cases e with
          | fileNotFound =>
              simp only [collect_aux, hps]
              rw [ih a b (c ++ [name]) Hrest]
              simp [aggregatorSamples, aggregatorByDay, aggregatorSkipped, hps,
                List.filterMap_cons, Except.toOption]
          | keyError => exact absurd hps hp.1
          | valueError => exact absurd hps hp.2

/-- C1 amended: the Snapshot Aggregator is partial-failure tolerant for
absent table sources only. Provided no snapshot raises a malformed-row
error (a missing required field or a non-integer stop_sequence), every
snapshot whose required sources are absent is caught, reported by folder
name, and skipped, and every remaining snapshot is processed and
contributes its samples to the corpus in order. Malformed rows, by
contrast, escape the per-snapshot boundary (see the counterexample). -/
theorem collect_partial_failure_absent_only (days : List (String × Snapshot))
    (H : ∀ p ∈ days, process_snapshot p.2 ≠ Except.error PyErr.keyError ∧
                     process_snapshot p.2 ≠ Except.error PyErr.valueError) :
    collect_all_travel_times days =
      Except.ok (aggregatorSamples days, aggregatorByDay days, aggregatorSkipped days) := by
  unfold collect_all_travel_times
  simpa using collect_aux_ok days [] [] [] H

/-- C1 witness: one snapshot with an absent stop_times file followed by a
well-formed snapshot; the absent one is reported and skipped and the good
one contributes its sample. -/
theorem collect_partial_failure_absent_only_witness :
    collect_all_travel_times [("d1", missingStopTimesSnap), ("d2", goodSnap)] =
      Except.ok
        (aggregatorSamples [("d1", missingStopTimesSnap), ("d2", goodSnap)],
         aggregatorByDay [("d1", missingStopTimesSnap), ("d2", goodSnap)],
         aggregatorSkipped [("d1", missingStopTimesSnap), ("d2", goodSnap)]) :=
  collect_partial_failure_absent_only [("d1", missingStopTimesSnap), ("d2", goodSnap)]
    (by decide)

/-- C1 counterexample: a snapshot whose stop_times table has stop_sequence
"x" (not an integer) makes the whole aggregator run fail with ValueError:
the malformed-row failure is not caught at the per-snapshot boundary, and
the following well-formed snapshot, which on its own yields one sample,
contributes nothing. -/
theorem collect_malformed_row_propagates_cex :
    collect_all_travel_times [("d1", badSeqSnap), ("d2", goodSnap)] =
      Except.error PyErr.valueError ∧
    process_snapshot goodSnap = Except.ok [goodTrip] := by
  refine ⟨by decide, by decide⟩

/-- Matching against empty origin and destination stop-id sets emits no
trip whatever the grouped rows are. -/
theorem match_trips_nil_ids (gs : List (String × List Visit)) :
    match_trips gs [] [] = [] := by
  induction gs with
  | nil => rfl
  | cons g rest ih =>
      have hone : match_one g.1 g.2 [] [] = none := by
        have hz : g.2.filter (fun s => ([] : List String).contains s.stop_id) = [] := by
          simp [List.filter_eq_nil_iff]
        unfold match_one
        rw [hz]
      simp [match_trips, List.filterMap_cons, hone] at ih ⊢
      exact ih

/-- C10: a snapshot missing only its stop table is not skipped: the stop-id
extraction catches the absent file and returns the empty pair of stop-id
sets, so the snapshot is processed to zero matched trips, and the
aggregator records it as a successful day with no samples and reports no
failure. -/
theorem missing_stops_yields_empty (s : Snapshot) (rows : List StopTimeRow)
    (tids : List String) (gs : List (String × List Visit)) (nm : String)
    (h1 : s.stops_file = none)
    (h2 : s.stop_times_file = some rows)
    (h3 : filter_trip_ids s.trips_file = Except.ok tids)
    (h4 : parse_stop_rows rows = Except.ok gs) :
    extract_stop_ids s.stops_file = Except.ok ([], []) ∧
    process_snapshot s = Except.ok [] ∧
    collect_all_travel_times [(nm, s)] = Except.ok ([], [(nm, [])], []) := by
  have hext : extract_stop_ids s.stops_file = Except.ok ([], []) := by
    rw [h1]; rfl
  have hfind : find_zoo_toompark_trips s.stop_times_file [] [] = Except.ok [] := by
    rw [h2]
    simp only [find_zoo_toompark_trips]
    rw [h4]
    simp only [bind, Except.bind]
    rw [match_trips_nil_ids]
  have hproc : process_snapshot s = Except.ok [] := by
    unfold process_snapshot
    rw [h3]
    simp only [bind, Except.bind]
    rw [hext]
    simp only [bind, Except.bind]
    rw [hfind]
    simp
  refine ⟨hext, hproc, ?_⟩
  simp [collect_all_travel_times, collect_aux, hproc]

/-- C10 witness: the concrete snapshot missing only stops.txt yields zero
matched trips and is recorded as a successful empty day. -/
theorem missing_stops_yields_empty_witness :
    extract_stop_ids missingStopsSnap.stops_file = Except.ok ([], []) ∧
    process_snapshot missingStopsSnap = Except.ok [] ∧
    collect_all_travel_times [("d1", missingStopsSnap)] = Except.ok ([], [("d1", [])], []) :=
  missing_stops_yields_empty missingStopsSnap goodStopTimesRows ["t1"] goodGroups "d1"
    (by decide) (by decide) (by decide) (by decide)

/-- Sorting each already-sorted trip group changes nothing. -/
theorem sortGroups_eq_of_sorted (gs : List (String × List Visit))
    (hs : ∀ g ∈ gs, List.Sorted (fun a b : Visit => a.stop_sequence ≤ b.stop_sequence) g.2) :
    sortGroups gs = gs := by
  induction gs with
  | nil => rfl
  | cons g rest ih =>
      have h1 : List.insertionSort (fun a b : Visit => a.stop_sequence ≤ b.stop_sequence) g.2 =
          g.2 :=
        List.Sorted.insertionSort_eq (hs g (List.mem_cons_self _ _))
      have h2 := ih (fun q hq => hs q (List.mem_cons_of_mem _ hq))
      simp only [sortGroups, List.map_cons] at h2 ⊢
      rw [h1, h2]

/-- C2 amended: the loader keeps each trip's visits in file row order and
never sorts; the matcher therefore selects the first origin visit in row
order, which coincides with the lowest-sequence-number origin visit exactly
when each trip's rows already appear in ascending sequence order, in which
case the implemented matcher and the spec's sorted matcher agree. -/
theorem matcher_sorted_agreement (rows : List StopTimeRow)
    (zoo_stop_ids toompark_stop_ids : List String) (gs : List (String × List Visit))
    (hp : parse_stop_rows rows = Except.ok gs)
    (hs : ∀ g ∈ gs, List.Sorted (fun a b : Visit => a.stop_sequence ≤ b.stop_sequence) g.2) :
    find_zoo_toompark_trips_sorted (some rows) zoo_stop_ids toompark_stop_ids =
      find_zoo_toompark_trips (some rows) zoo_stop_ids toompark_stop_ids := by
  simp only [find_zoo_toompark_trips_sorted, find_zoo_toompark_trips]
  rw [hp]
  simp only [bind, Except.bind]
  rw [sortGroups_eq_of_sorted gs hs]

/-- C2 witness: on rows already in ascending sequence order the two
matchers agree. -/
theorem matcher_sorted_agreement_witness :
    find_zoo_toompark_trips_sorted (some goodStopTimesRows) ["Z"] ["T"] =
      find_zoo_toompark_trips (some goodStopTimesRows) ["Z"] ["T"] :=
  matcher_sorted_agreement goodStopTimesRows ["Z"] ["T"] goodGroups (by decide)
    (by simp [goodGroups, List.sorted_cons])

/-- C2 counterexample: on a trip whose Zoo visits appear in the file as
sequence 5 before sequence 2, the implemented matcher selects the sequence-5
visit (first in row order, departure 08:05:00) while the spec's sorted
matcher selects the sequence-2 visit (lowest sequence number, departure
08:01:00): the loader does not sort by sequence_number and the selected
origin is not the lowest-sequence origin visit. -/
theorem matcher_unsorted_cex :
    find_zoo_toompark_trips (some unorderedRows) ["Z"] ["T"] =
      Except.ok [{ trip_id := "t1", zoo_stop_id := "Z", zoo_departure := ⟨8, 5, 0⟩
                 , toompark_stop_id := "T", toompark_arrival := ⟨8, 20, 0⟩
                 , time_diff_minutes := 15, intermediate_stops := 1 }] ∧
    find_zoo_toompark_trips_sorted (some unorderedRows) ["Z"] ["T"] =
      Except.ok [{ trip_id := "t1", zoo_stop_id := "Z", zoo_departure := ⟨8, 1, 0⟩
                 , toompark_stop_id := "T", toompark_arrival := ⟨8, 20, 0⟩
                 , time_diff_minutes := 19, intermediate_stops := 4 }] ∧
    find_zoo_toompark_trips (some unorderedRows) ["Z"] ["T"] ≠
      find_zoo_toompark_trips_sorted (some unorderedRows) ["Z"] ["T"] := by
  refine ⟨by decide, by decide, by decide⟩

/-- C6: whenever no trip in the corpus departs the origin at or after the
traveler's arrival at the stop (in particular for any leave time later than
every origin departure minus the walk), the reachable subset is empty and
the estimator returns probability exactly one. -/
theorem lateness_empty_reachable_is_one (trips : List MatchedTrip)
    (leave_home_at meeting_time_sec walk_to_bus walk_from_bus : Int)
    (H : ∀ t ∈ trips,
      change_gtfs_time_to_seconds t.zoo_departure < leave_home_at + walk_to_bus) :
    lateness_prob_at trips leave_home_at meeting_time_sec walk_to_bus walk_from_bus = 1 := by
  have hav : available_trips trips (leave_home_at + walk_to_bus) = [] := by
    unfold available_trips
    have hfil : trips.filter (fun t =>
        decide (leave_home_at + walk_to_bus ≤ change_gtfs_time_to_seconds t.zoo_departure)) =
        [] := by
      rw [List.filter_eq_nil_iff]
      intro t ht
      simp only [decide_eq_true_eq]
      have := H t ht
      omega
    rw [hfil]
    rfl
  simp [lateness_prob_at, hav]

/-- C6 witness: leaving at 08:08 with a five-minute walk reaches the stop at
08:13, after the only trip's 08:10 departure, so the probability is one. -/
theorem lateness_empty_reachable_is_one_witness :
    lateness_prob_at [scenarioTrip] 29280 32700 300 240 = 1 :=
  lateness_empty_reachable_is_one [scenarioTrip] 29280 32700 300 240 (by decide)

/-- C7: on the one-trip corpus (origin departure 08:10:00, destination
arrival 08:23:00) with walks of 300 and 240 seconds and a 09:05:00 meeting,
the estimator returns probability 0 for leaving at 08:00:00 and probability
1 for leaving at 08:08:00. -/
theorem lateness_scenario_values :
    compute_lateness_probability [scenarioTrip] [28800, 29280] 32700 300 240 = [0, 1] := by
  norm_num [compute_lateness_probability, lateness_prob_at, available_trips, scenarioTrip,
    change_gtfs_time_to_seconds, List.filter, List.countP, List.countP.go]

/-- On integers from 0 to 99, Python 02-formatting agrees with the
two-digit zero-padded numeral. -/
theorem pyFormat02_eq_twoDigitString :
    ∀ n : Nat, n < 100 → pyFormat02 (n : Int) = twoDigitString (n : Int) := by decide

/-- C9: formatting h*3600 + m*60 seconds with sec_to_hhmm yields exactly the
zero-padded clock string, two digits of hours, a colon, two digits of
minutes, for all hours up to 47 and minutes up to 59. -/
theorem sec_to_hhmm_zero_padded (h m : Int) (hh0 : 0 ≤ h) (hh1 : h ≤ 47)
    (hm0 : 0 ≤ m) (hm1 : m ≤ 59) :
    sec_to_hhmm (h * 3600 + m * 60) = twoDigitString h ++ ":" ++ twoDigitString m := by
  have e1 : (h * 3600 + m * 60).fdiv 3600 = h := by
    rw [Int.fdiv_eq_ediv _ (by omega)]
    rw [add_comm (h * 3600) (m * 60), mul_comm h 3600]
    rw [Int.add_mul_ediv_left (m * 60) h (by omega)]
    rw [Int.ediv_eq_zero_of_lt (by omega) (by omega)]
    omega
  have e2 : (h * 3600 + m * 60) % 3600 = m * 60 := by
    rw [add_comm (h * 3600) (m * 60), mul_comm h 3600]
    rw [Int.add_mul_emod_self_left]
    exact Int.emod_eq_of_lt (by omega) (by omega)
  have e3 : (m * 60).fdiv 60 = m := by
    rw [Int.fdiv_eq_ediv _ (by omega)]
    exact Int.mul_ediv_cancel m (by omega)
  have p1 : pyFormat02 h = twoDigitString h := by
    have hn : h = ((h.toNat : Nat) : Int) := (Int.toNat_of_nonneg hh0).symm
    rw [hn]
    exact pyFormat02_eq_twoDigitString h.toNat (by omega)
  have p2 : pyFormat02 m = twoDigitString m := by
    have hn : m = ((m.toNat : Nat) : Int) := (Int.toNat_of_nonneg hm0).symm
    rw [hn]
    exact pyFormat02_eq_twoDigitString m.toNat (by omega)
  simp only [sec_to_hhmm]
  rw [e1, e2, e3, p1, p2]

/-- C9 witness: 08:05 formatted from 8 hours and 5 minutes of seconds. -/
theorem sec_to_hhmm_zero_padded_witness :
    sec_to_hhmm (8 * 3600 + 5 * 60) = twoDigitString 8 ++ ":" ++ twoDigitString 5 :=
  sec_to_hhmm_zero_padded 8 5 (by decide) (by decide) (by decide) (by decide)

/-- The reachable-subset size as a count over the corpus. -/
theorem available_length (trips : List MatchedTrip) (arrive : Int) :
    (available_trips trips arrive).length =
      trips.countP (fun t =>
        decide (arrive ≤ change_gtfs_time_to_seconds t.zoo_departure)) := by
  simp [available_trips, List.countP_eq_length_filter]

/-- The late-and-reachable count as a count over the corpus. -/
theorem available_late_count (trips : List MatchedTrip) (arrive meeting wf : Int) :
    (available_trips trips arrive).countP (fun p => decide (meeting < p.2 + wf)) =
      trips.countP (fun t =>
        decide (meeting < change_gtfs_time_to_seconds t.toompark_arrival + wf) &&
        decide (arrive ≤ change_gtfs_time_to_seconds t.zoo_departure)) := by
  simp [available_trips, List.countP_map, List.countP_filter, Function.comp]

/-- C3 amended: the lateness probability is not monotone on arbitrary
corpora; restricted to corpora with no overtaking (a trip departing the
origin no later than another also arrives at the destination no later) and
a reachable trip at the later of two candidate times, the probability is a
non-decreasing function of the candidate departure time: leaving earlier
never increases the lateness probability. -/
theorem lateness_prob_nondecreasing (trips : List MatchedTrip)
    (meeting_time_sec walk_to_bus walk_from_bus t1 t2 : Int)
    (h12 : t1 ≤ t2)
    (hne : (available_trips trips (t2 + walk_to_bus)).isEmpty = false)
    (hmono : ∀ a ∈ trips, ∀ b ∈ trips,
      change_gtfs_time_to_seconds a.zoo_departure ≤
          change_gtfs_time_to_seconds b.zoo_departure →
      change_gtfs_time_to_seconds a.toompark_arrival ≤
          change_gtfs_time_to_seconds b.toompark_arrival) :
    lateness_prob_at trips t1 meeting_time_sec walk_to_bus walk_from_bus ≤
      lateness_prob_at trips t2 meeting_time_sec walk_to_bus walk_from_bus := by
  have hn2pos : 0 < (available_trips trips (t2 + walk_to_bus)).length :=
    List.length_pos.mpr (List.isEmpty_eq_false.mp hne)
  have hsub : ∀ x ∈ trips,
      decide (t2 + walk_to_bus ≤ change_gtfs_time_to_seconds x.zoo_departure) = true →
      decide (t1 + walk_to_bus ≤ change_gtfs_time_to_seconds x.zoo_departure) = true := by
    intro x _ hx
    rw [decide_eq_true_eq] at hx ⊢
    omega
  have hlen21 : (available_trips trips (t2 + walk_to_bus)).length ≤
      (available_trips trips (t1 + walk_to_bus)).length := by
    rw [available_length, available_length]
    exact List.countP_mono_left hsub
  have hn1pos : 0 < (available_trips trips (t1 + walk_to_bus)).length :=
    lt_of_lt_of_le hn2pos hlen21
  have hne1 : (available_trips trips (t1 + walk_to_bus)).isEmpty = false :=
    List.isEmpty_eq_false.mpr (List.length_pos.mp hn1pos)
  have hc1n1 : trips.countP (fun t =>
        decide (meeting_time_sec <
          change_gtfs_time_to_seconds t.toompark_arrival + walk_from_bus) &&
        decide (t1 + walk_to_bus ≤ change_gtfs_time_to_seconds t.zoo_departure)) ≤
      trips.countP (fun t =>
        decide (t1 + walk_to_bus ≤ change_gtfs_time_to_seconds t.zoo_departure)) :=
    List.countP_mono_left (fun x _ hp => ((Bool.and_eq_true _ _).mp hp).2)
  have hq1pos : (0 : ℚ) < ((available_trips trips (t1 + walk_to_bus)).length : ℚ) := by
    exact_mod_cast hn1pos
  have hq2pos : (0 : ℚ) < ((available_trips trips (t2 + walk_to_bus)).length : ℚ) := by
    exact_mod_cast hn2pos
  simp only [lateness_prob_at, hne1, hne, Bool.false_eq_true, if_false]
  rw [available_late_count, available_late_count, available_length, available_length]
  rw [available_length, available_length] at hlen21
  rw [available_length] at hn1pos hn2pos
  rw [available_length] at hq1pos hq2pos
  by_cases hD : ∃ x ∈ trips,
      (t1 + walk_to_bus ≤ change_gtfs_time_to_seconds x.zoo_departure) ∧
      (change_gtfs_time_to_seconds x.zoo_departure < t2 + walk_to_bus) ∧
      (meeting_time_sec < change_gtfs_time_to_seconds x.toompark_arrival + walk_from_bus)
  · obtain ⟨x, hx, hxr1, hxlt, hxlate⟩ := hD
    have hall : ∀ y ∈ trips,
        decide (t2 + walk_to_bus ≤ change_gtfs_time_to_seconds y.zoo_departure) = true →
        (decide (meeting_time_sec <
            change_gtfs_time_to_seconds y.toompark_arrival + walk_from_bus) &&
         decide (t2 + walk_to_bus ≤ change_gtfs_time_to_seconds y.zoo_departure)) = true := by
      intro y hy hr
      rw [decide_eq_true_eq] at hr
      have hdy : change_gtfs_time_to_seconds x.zoo_departure ≤
          change_gtfs_time_to_seconds y.zoo_departure := by omega
      have hay := hmono x hx y hy hdy
      simp only [Bool.and_eq_true, decide_eq_true_eq]
      exact ⟨by omega, hr⟩
    have hc2eq : trips.countP (fun t =>
          decide (meeting_time_sec <
            change_gtfs_time_to_seconds t.toompark_arrival + walk_from_bus) &&
          decide (t2 + walk_to_bus ≤ change_gtfs_time_to_seconds t.zoo_departure)) =
        trips.countP (fun t =>
          decide (t2 + walk_to_bus ≤ change_gtfs_time_to_seconds t.zoo_departure)) :=
      le_antisymm
        (List.countP_mono_left (fun y _ hp => ((Bool.and_eq_true _ _).mp hp).2))
        (List.countP_mono_left hall)
    have hone : (trips.countP (fun t =>
          decide (meeting_time_sec <
            change_gtfs_time_to_seconds t.toompark_arrival + walk_from_bus) &&
          decide (t2 + walk_to_bus ≤ change_gtfs_time_to_seconds t.zoo_departure)) : ℚ) /
        (trips.countP (fun t =>
          decide (t2 + walk_to_bus ≤ change_gtfs_time_to_seconds t.zoo_departure)) : ℚ) = 1 := by
      rw [hc2eq]
      exact div_self (ne_of_gt hq2pos)
    rw [hone, div_le_one hq1pos]
    exact_mod_cast hc1n1
  · push_neg at hD
    have himp : ∀ y ∈ trips,
        (decide (meeting_time_sec <
            change_gtfs_time_to_seconds y.toompark_arrival + walk_from_bus) &&
         decide (t1 + walk_to_bus ≤ change_gtfs_time_to_seconds y.zoo_departure)) = true →
        (decide (meeting_time_sec <
            change_gtfs_time_to_seconds y.toompark_arrival + walk_from_bus) &&
         decide (t2 + walk_to_bus ≤ change_gtfs_time_to_seconds y.zoo_departure)) = true := by
      intro y hy hp
      simp only [Bool.and_eq_true, decide_eq_true_eq] at hp ⊢
      obtain ⟨hl, hr⟩ := hp
      refine ⟨hl, ?_⟩
      by_contra hcon
      push_neg at hcon
      exact absurd hl (not_lt.mpr (hD y hy hr hcon))
    have hcc := List.countP_mono_left himp
    rw [div_le_div_iff₀ hq1pos hq2pos]
    exact_mod_cast Nat.mul_le_mul hcc hlen21

/-- C3 witness: the amended monotonicity applied to the one-trip corpus at
two leave times whose reachable subsets are nonempty. -/
theorem lateness_prob_nondecreasing_witness :
    lateness_prob_at [scenarioTrip] 27000 32700 300 240 ≤
      lateness_prob_at [scenarioTrip] 28800 32700 300 240 :=
  lateness_prob_nondecreasing [scenarioTrip] 32700 300 240 27000 28800
    (by decide) (by decide) (by decide)

/-- C3 counterexample: on a two-trip corpus whose early trip is on time and
whose later trip is late, both tested leave times keep the reachable subset
nonempty, yet the probability rises from one half at 07:30 to one at 08:00:
the lateness probability is not a non-increasing function of the candidate
departure time. -/
theorem lateness_prob_not_nonincreasing_cex :
    (27000 : Int) ≤ 28800 ∧
    (available_trips twoTripCorpus (27000 + 300)).isEmpty = false ∧
    (available_trips twoTripCorpus (28800 + 300)).isEmpty = false ∧
    lateness_prob_at twoTripCorpus 27000 32700 300 240 = 1 / 2 ∧
    lateness_prob_at twoTripCorpus 28800 32700 300 240 = 1 ∧
    ¬(lateness_prob_at twoTripCorpus 28800 32700 300 240 ≤
        lateness_prob_at twoTripCorpus 27000 32700 300 240) := by
  have hv1 : lateness_prob_at twoTripCorpus 27000 32700 300 240 = 1 / 2 := by
    norm_num [lateness_prob_at, available_trips, twoTripCorpus,
      change_gtfs_time_to_seconds, List.filter, List.countP, List.countP.go]
  have hv2 : lateness_prob_at twoTripCorpus 28800 32700 300 240 = 1 := by
    norm_num [lateness_prob_at, available_trips, twoTripCorpus,
      change_gtfs_time_to_seconds, List.filter, List.countP, List.countP.go]
  refine ⟨by decide, by decide, by decide, hv1, hv2, ?_⟩
  rw [hv1, hv2]
  norm_num

/-- C8 witness: the direction invariant instantiated on the well-formed
one-trip snapshot data. -/
theorem matcher_direction_invariant_witness :
    ∃ g ∈ goodGroups, g.1 = goodTrip.trip_id ∧ ∃ z ∈ g.2, ∃ d ∈ g.2,
      (["Z"] : List String).contains z.stop_id = true ∧
      (["T"] : List String).contains d.stop_id = true ∧
      goodTrip.zoo_departure = z.departure_time ∧
      goodTrip.toompark_arrival = d.arrival_time ∧
      goodTrip.intermediate_stops = d.stop_sequence - z.stop_sequence - 1 ∧
      z.stop_sequence < d.stop_sequence :=
  matcher_direction_invariant goodGroups ["Z"] ["T"] goodTrip (by decide)
